import Mathlib

/-!
Shallow embedding of the chatbot client (`src/client/app.py`).

The client keeps two plain-text settings files (backend URL, license key);
absence of a file means "unset".  We model the two files as a `Store` of
`Option String` values (`none` = file absent, `some t` = file holding text
`t`).  Python's `str.strip()` is modelled by `pyStrip`,
`str.startswith` by `pyStartsWith`, `str.splitlines` by
`pySplitlines`, and `", ".join` by `String.intercalate ", "`.

Network traffic is modelled by an oracle passed to each operation: the
oracle maps a request (URL, key, payload) to the observable outcome of
`requests.post` plus the subsequent `raise_for_status` / JSON-field
access (`Except.error e` when any exception was raised inside a `try`
block, `Except.ok` with the parsed fields otherwise).  Each operation
additionally returns the list of HTTP requests it actually issued, so
that "no network call happens" is a provable statement.

`gr.Error` raises (which propagate to the caller) are modelled as
`Except.error`; ordinary returned strings as `Except.ok`.
-/

namespace ChatClient

/-- Python `str.strip()`: drop leading and trailing whitespace
(modelled over the character list; whitespace = space, tab, CR, LF). -/
def pyStrip (s : String) : String :=
  String.mk (((s.data.dropWhile Char.isWhitespace).reverse.dropWhile Char.isWhitespace).reverse)

/-- Python `s.startswith(p)`: `p` is a prefix of `s`. -/
def pyStartsWith (s p : String) : Bool :=
  p.data.isPrefixOf s.data

/-- The two settings files of the client (`backend_url.txt`,
`license_key.txt`); `none` means the file does not exist. -/
structure Store where
  backendFile : Option String
  licenseFile : Option String
deriving DecidableEq, Repr

/-- Embedding of `save_backend` (app.py lines 17-21): raises `gr.Error`
when the raw `url` does not start with `"http"`; otherwise writes the
trimmed url and returns a success message.  The pair returns the
operation result and the store after the call. -/
def save_backend (url : String) (s : Store) : Except String String × Store :=
  if pyStartsWith url "http" then
    (Except.ok "✅ Saved", { s with backendFile := some (pyStrip url) })
  else
    (Except.error "Enter a full URL, e.g., http://localhost:8000", s)

/-- Embedding of `save_license` (app.py lines 23-27): raises `gr.Error`
when the trimmed key has fewer than 8 characters; otherwise writes the
trimmed key and returns a success message. -/
def save_license (key : String) (s : Store) : Except String String × Store :=
  if (pyStrip key).length < 8 then
    (Except.error "License looks too short.", s)
  else
    (Except.ok "✅ Saved", { s with licenseFile := some (pyStrip key) })

/-- Embedding of `get_backend` (app.py lines 29-30): stripped file
content when the file exists, else the default URL. -/
def get_backend (s : Store) : String :=
  match s.backendFile with
  | some t => pyStrip t
  | none => "http://localhost:8000"

/-- Embedding of `get_license` (app.py lines 32-33): stripped file
content when the file exists, else the empty string. -/
def get_license (s : Store) : String :=
  match s.licenseFile with
  | some t => pyStrip t
  | none => ""

/-- Parsed body of a successful `/api/license/verify` response
(fields `plan` and `quota_remaining`). -/
structure LicenseResp where
  plan : String
  quota_remaining : Int
deriving DecidableEq, Repr

/-- Embedding of `check_license` (app.py lines 35-45).  `net url key` is
the outcome of `requests.post(url, json={"key": key}) ; raise_for_status ;
json()[plan, quota_remaining]`: `Except.error e` for any exception. The
second component lists the URLs of the HTTP requests issued. -/
def check_license (s : Store) (net : String → String → Except String LicenseResp) :
    String × List String :=
  let url := get_backend s ++ "/api/license/verify"
  let key := get_license s
  if key = "" then ("❌ No license saved", [])
  else
    match net url key with
    | Except.error e => ("❌ " ++ e, [url])
    | Except.ok d =>
        ("✅ Plan: " ++ d.plan ++ " | Remaining: " ++ toString d.quota_remaining, [url])

/-- A file handed to `upload_file` by gradio; only its `name` is used. -/
structure UFile where
  name : String
deriving DecidableEq, Repr

/-- Observable part of an `/api/upload` response: `status_code`,
body text, and the optional `chunks_added` JSON field
(`r.json().get("chunks_added", 0)` defaults it to 0). -/
structure UploadResp where
  status_code : Nat
  text : String
  chunks_added : Option Nat
deriving DecidableEq, Repr

/-- The `for f in files` loop of `upload_file` (app.py lines 53-61):
accumulates `chunks_added`, stops at the first response whose status is
not 200.  `log` accumulates the issued requests (url, key, file) in
reverse. -/
def uploadLoop (url key : String) (net : String → String → UFile → UploadResp) :
    List UFile → Nat → List (String × String × UFile) → String × List (String × String × UFile)
  | [], total, log =>
      ("✅ Uploaded. " ++ toString total ++ " chunks added.", log.reverse)
  | f :: rest, total, log =>
      let r := net url key f
      if r.status_code ≠ 200 then
        ("❌ Upload failed for " ++ f.name ++ ": " ++ r.text, ((url, key, f) :: log).reverse)
      else
        uploadLoop url key net rest (total + r.chunks_added.getD 0) ((url, key, f) :: log)

/-- Embedding of `upload_file` (app.py lines 47-61).  Returns the result
(`Except.error` for the `gr.Error` raise, `Except.ok msg` for a normal
return) and the list of HTTP requests issued, in order. -/
def upload_file (files : List UFile) (s : Store)
    (net : String → String → UFile → UploadResp) :
    Except String String × List (String × String × UFile) :=
  match files with
  | [] => (Except.ok "No file selected.", [])
  | _ :: _ =>
      let url := get_backend s ++ "/api/upload"
      let key := get_license s
      if key = "" then (Except.error "Save a license key first.", [])
      else
        let res := uploadLoop url key net files 0 []
        (Except.ok res.1, res.2)

/-- Parsed body of a successful `/api/chat` response: the mandatory
`answer` field and the optional `citations` field
(`data.get("citations", [])` defaults it to the empty list). -/
structure ChatResp where
  answer : String
  citations : Option (List String)
deriving DecidableEq, Repr

/-- Embedding of `chat` (app.py lines 63-73).  `net url key msg mode` is
the outcome of the POST plus `raise_for_status`, `json()` and the
`answer` lookup, all inside the `try`: `Except.error e` for any
exception raised there. -/
def chat (msg mode : String) (s : Store)
    (net : String → String → String → String → Except String ChatResp) :
    Except String (String × String) :=
  let url := get_backend s ++ "/api/chat"
  let key := get_license s
  if key = "" then Except.error "Save a license key first."
  else
    match net url key msg mode with
    | Except.error e => Except.ok ("❌ " ++ e, "")
    | Except.ok d =>
        Except.ok (d.answer, "Citations: " ++ String.intercalate ", " (d.citations.getD []))

/-- Python `str.splitlines` on a list of characters: splits at `\n`,
`\r\n` and `\r`; no trailing empty line; the empty string yields `[]`. -/
def splitlinesAux : List Char → List Char → List String
  | [], acc => if acc.isEmpty then [] else [String.mk acc.reverse]
  | '\r' :: '\n' :: rest, acc => String.mk acc.reverse :: splitlinesAux rest []
  | '\n' :: rest, acc => String.mk acc.reverse :: splitlinesAux rest []
  | '\r' :: rest, acc => String.mk acc.reverse :: splitlinesAux rest []
  | c :: rest, acc => splitlinesAux rest (c :: acc)

/-- Python `content.splitlines()`. -/
def pySplitlines (s : String) : List String := splitlinesAux s.data []

/-- The 11 fixed headers of the "Findings" sheet (app.py line 87). -/
def findingsHeaders : List String :=
  ["Control No", "Control Name", "Question", "Example how to demonstrate question",
   "Implementation", "Evidence", "C", "NC", "OFI", "NA", "Recommendations"]

/-- Embedding of `export_xlsx` (app.py lines 83-94) as the produced
workbook: a list of (sheet title, rows) pairs.  `content.splitlines() or
[""]` falls back to a single empty line when `splitlines` is empty. -/
def export_xlsx (content : String) : List (String × List (List String)) :=
  let lines := match pySplitlines content with
    | [] => [""]
    | ls => ls
  [("Findings", [findingsHeaders]),
   ("Output", ["Output"] :: lines.map (fun l => [l]))]


/-! ### Helper lemmas about the upload loop -/

/-- When every response in the batch has status 200, the loop posts every
file in order, sums the `chunks_added` values (missing field counts 0)
and reports the total. -/
theorem uploadLoop_all_ok (url key : String) (net : String → String → UFile → UploadResp)
    (files : List UFile) (total : Nat) (log : List (String × String × UFile))
    (h : ∀ f ∈ files, (net url key f).status_code = 200) :
    uploadLoop url key net files total log =
      ("✅ Uploaded. " ++
         toString (files.foldl (fun t f => t + (net url key f).chunks_added.getD 0) total) ++
         " chunks added.",
       log.reverse ++ files.map (fun f => (url, key, f))) := by
  induction files generalizing total log with
  | nil => simp [uploadLoop]
  | cons f rest ih =>
      have hf : (net url key f).status_code = 200 := h f (List.mem_cons_self f rest)
      have hrest : ∀ g ∈ rest, (net url key g).status_code = 200 :=
        fun g hg => h g (List.mem_cons_of_mem f hg)
      rw [uploadLoop]
      simp [hf, ih _ _ hrest]

/-- When every response before `f` has status 200 and `f`'s response has
not, the loop posts exactly the prefix up to and including `f` and
returns the error message for `f`. -/
theorem uploadLoop_first_fail (url key : String) (net : String → String → UFile → UploadResp)
    (pre : List UFile) (f : UFile) (post : List UFile) (total : Nat)
    (log : List (String × String × UFile))
    (hpre : ∀ g ∈ pre, (net url key g).status_code = 200)
    (hf : (net url key f).status_code ≠ 200) :
    uploadLoop url key net (pre ++ f :: post) total log =
      ("❌ Upload failed for " ++ f.name ++ ": " ++ (net url key f).text,
       log.reverse ++ (pre ++ [f]).map (fun g => (url, key, g))) := by
  induction pre generalizing total log with
  | nil =>
      rw [List.nil_append, uploadLoop]
      simp [hf]
  | cons g rest ih =>
      have hg : (net url key g).status_code = 200 := hpre g (List.mem_cons_self g rest)
      have hrest : ∀ x ∈ rest, (net url key x).status_code = 200 :=
        fun x hx => hpre x (List.mem_cons_of_mem g hx)
      rw [List.cons_append, uploadLoop]
      simp [hg, ih _ _ hrest]

/-- On a nonempty batch with a stored key, `upload_file` runs the loop
starting from total 0 and an empty request log. -/
theorem upload_file_ne (files : List UFile) (s : Store)
    (net : String → String → UFile → UploadResp)
    (hne : files ≠ []) (hk : get_license s ≠ "") :
    upload_file files s net =
      (Except.ok (uploadLoop (get_backend s ++ "/api/upload") (get_license s) net files 0 []).1,
       (uploadLoop (get_backend s ++ "/api/upload") (get_license s) net files 0 []).2) := by
  cases files with
  | nil => exact absurd rfl hne
  | cons f rest => simp only [upload_file, if_neg hk]

/-! ### Claim theorems -/

/-- C1, counterexample: the claim says `save_backend` fails iff the url
AFTER TRIMMING does not begin with "http".  The code checks the raw url:
on `" http://localhost:8000"` the trimmed value begins with "http", yet
the call fails (and writes nothing). -/
theorem C1_counterexample :
    pyStartsWith (pyStrip " http://localhost:8000") "http" = true ∧
    (save_backend " http://localhost:8000" (Store.mk none none)).1 =
      Except.error "Enter a full URL, e.g., http://localhost:8000" ∧
    (save_backend " http://localhost:8000" (Store.mk none none)).2 = Store.mk none none :=
  ⟨by decide, rfl, rfl⟩

/-- C1, amended: `save_backend url` fails with a ValidationError iff the
RAW url (before trimming) does not begin with "http"; when the raw url
does begin with "http", the trimmed value is written to persistent
storage and the call returns success. -/
theorem C1_amended_rawcheck (url : String) (s : Store) :
    (pyStartsWith url "http" = false ↔
      (save_backend url s).1 =
        Except.error "Enter a full URL, e.g., http://localhost:8000") ∧
    (pyStartsWith url "http" = true →
      save_backend url s =
        (Except.ok "✅ Saved", { s with backendFile := some (pyStrip url) })) := by
  cases h : pyStartsWith url "http" <;> simp [save_backend, h]

/-- Witness for C1 amended: a url with a raw "http" prefix and trailing
whitespace is accepted and stored trimmed. -/
theorem C1_amended_rawcheck_witness :
    save_backend "http://h " (Store.mk none none) =
      (Except.ok "✅ Saved", Store.mk (some "http://h") none) := by
  have h := (C1_amended_rawcheck "http://h " (Store.mk none none)).2 (by decide)
  exact h

/-- C2: `export_xlsx ""` yields a workbook whose "Findings" sheet holds
exactly the one row of 11 fixed headers and no data rows, and whose
"Output" sheet holds the "Output" header row plus exactly one row that
is the empty string. -/
theorem C2_export_xlsx_empty :
    export_xlsx "" = [("Findings", [findingsHeaders]), ("Output", [["Output"], [""]])] ∧
    findingsHeaders.length = 11 ∧
    (((export_xlsx "").map Prod.snd).getD 1 []).countP (fun r => decide (r = [""])) = 1 :=
  ⟨rfl, rfl, rfl⟩

/-- C3: with a stored key, on an all-200 batch `upload_file` posts every
file in order and reports the accumulated `chunks_added` total; on the
first non-200 response it stops (posting exactly the prefix up to the
failing file) and returns an error message naming that file and
containing the response body text. -/
theorem C3_upload_batch (s : Store) (net : String → String → UFile → UploadResp)
    (hk : get_license s ≠ "") :
    (∀ files : List UFile, files ≠ [] →
        (∀ f ∈ files,
          (net (get_backend s ++ "/api/upload") (get_license s) f).status_code = 200) →
        upload_file files s net =
          (Except.ok ("✅ Uploaded. " ++
              toString (files.foldl
                (fun t f =>
                  t + (net (get_backend s ++ "/api/upload") (get_license s) f).chunks_added.getD 0)
                0) ++ " chunks added."),
           files.map (fun f => (get_backend s ++ "/api/upload", get_license s, f)))) ∧
    (∀ (pre : List UFile) (f : UFile) (post : List UFile),
        (∀ g ∈ pre,
          (net (get_backend s ++ "/api/upload") (get_license s) g).status_code = 200) →
        (net (get_backend s ++ "/api/upload") (get_license s) f).status_code ≠ 200 →
        upload_file (pre ++ f :: post) s net =
          (Except.ok ("❌ Upload failed for " ++ f.name ++ ": " ++
              (net (get_backend s ++ "/api/upload") (get_license s) f).text),
           (pre ++ [f]).map (fun g => (get_backend s ++ "/api/upload", get_license s, g)))) := by
  constructor
  · intro files hne hall
    rw [upload_file_ne files s net hne hk,
        uploadLoop_all_ok _ _ _ _ _ _ hall]
    simp
  · intro pre f post hpre hf
    rw [upload_file_ne (pre ++ f :: post) s net (by simp) hk,
        uploadLoop_first_fail _ _ _ _ _ _ _ _ hpre hf]
    simp

/-- Witness for C3: a one-file batch with a stored key and a 200
response carrying 3 chunks reports "3 chunks added" after one POST. -/
theorem C3_upload_batch_witness :
    upload_file [UFile.mk "a.txt"] (Store.mk none (some "abcdefgh"))
        (fun _ _ _ => UploadResp.mk 200 "" (some 3)) =
      (Except.ok "✅ Uploaded. 3 chunks added.",
       [("http://localhost:8000/api/upload", "abcdefgh", UFile.mk "a.txt")]) := by
  have h := (C3_upload_batch (Store.mk none (some "abcdefgh"))
      (fun _ _ _ => UploadResp.mk 200 "" (some 3)) (by decide)).1
      [UFile.mk "a.txt"] (by simp) (fun f hf => rfl)
  exact h

/-- C4: with a nonempty file list and no stored license key,
`upload_file` raises the missing-credential error and the request log
stays empty: zero HTTP requests are issued. -/
theorem C4_upload_missing_key (files : List UFile) (s : Store)
    (net : String → String → UFile → UploadResp)
    (hne : files ≠ []) (hk : get_license s = "") :
    upload_file files s net = (Except.error "Save a license key first.", []) := by
  cases files with
  | nil => exact absurd rfl hne
  | cons f rest => simp only [upload_file, if_pos hk]

/-- Witness for C4: one file, empty store. -/
theorem C4_upload_missing_key_witness :
    upload_file [UFile.mk "a.txt"] (Store.mk none none)
        (fun _ _ _ => UploadResp.mk 200 "" none) =
      (Except.error "Save a license key first.", []) :=
  C4_upload_missing_key _ _ _ (by simp) rfl

/-- C5: with a stored key, when the POST (or status check or JSON
parsing) raises, `chat` returns the error-prefixed string paired with
the empty citation string; on success it returns the answer and the
joined citations. -/
theorem C5_chat_outcomes (msg mode : String) (s : Store)
    (net : String → String → String → String → Except String ChatResp)
    (hk : get_license s ≠ "") :
    (∀ e, net (get_backend s ++ "/api/chat") (get_license s) msg mode = Except.error e →
        chat msg mode s net = Except.ok ("❌ " ++ e, "")) ∧
    (∀ d, net (get_backend s ++ "/api/chat") (get_license s) msg mode = Except.ok d →
        chat msg mode s net =
          Except.ok (d.answer,
            "Citations: " ++ String.intercalate ", " (d.citations.getD []))) := by
  constructor <;> intro x hx <;> simp [chat, if_neg hk, hx]

/-- Witness for C5: a simulated 500 error yields the error-prefixed
answer and empty citations. -/
theorem C5_chat_outcomes_witness :
    chat "hello" "answer" (Store.mk none (some "abcdefgh"))
        (fun _ _ _ _ => Except.error "500 Server Error: INTERNAL SERVER ERROR") =
      Except.ok ("❌ 500 Server Error: INTERNAL SERVER ERROR", "") := by
  have h := (C5_chat_outcomes "hello" "answer" (Store.mk none (some "abcdefgh"))
      (fun _ _ _ _ => Except.error "500 Server Error: INTERNAL SERVER ERROR") (by decide)).1
      "500 Server Error: INTERNAL SERVER ERROR" rfl
  exact h

/-- C6: `save_license key` fails with a ValidationError iff the trimmed
key is shorter than 8 characters; on failure the store is unchanged; on
success the trimmed key is written and success returned. -/
theorem C6_save_license_spec (key : String) (s : Store) :
    ((pyStrip key).length < 8 ↔
      (save_license key s).1 = Except.error "License looks too short.") ∧
    ((pyStrip key).length < 8 → (save_license key s).2 = s) ∧
    (8 ≤ (pyStrip key).length →
      save_license key s =
        (Except.ok "✅ Saved", { s with licenseFile := some (pyStrip key) })) := by
  by_cases h : (pyStrip key).length < 8 <;> simp [save_license, h]

/-- Witness for C6: the 3-character key "abc" is rejected and the store
is untouched. -/
theorem C6_save_license_spec_witness :
    ((pyStrip "abc").length < 8 ∧
      (save_license "abc" (Store.mk none none)).1 = Except.error "License looks too short.") ∧
    (save_license "abc" (Store.mk none none)).2 = Store.mk none none :=
  ⟨⟨by decide, (C6_save_license_spec "abc" (Store.mk none none)).1.mp (by decide)⟩,
   (C6_save_license_spec "abc" (Store.mk none none)).2.1 (by decide)⟩

/-- C7: for every url whose raw text does not start with "http" (in
particular every url not starting with an HTTP scheme), `save_backend`
fails and the persisted backend-url storage — also as observed through
`get_backend` — is unchanged. -/
theorem C7_save_backend_reject_unchanged (url : String) (s : Store)
    (h : pyStartsWith url "http" = false) :
    (save_backend url s).1 =
      Except.error "Enter a full URL, e.g., http://localhost:8000" ∧
    (save_backend url s).2 = s ∧
    get_backend (save_backend url s).2 = get_backend s := by
  simp [save_backend, h]

/-- Witness for C7: rejecting "ftp://host" leaves a stored backend url
in place. -/
theorem C7_save_backend_reject_unchanged_witness :
    (save_backend "ftp://host" (Store.mk (some "http://a") none)).2 =
      Store.mk (some "http://a") none ∧
    get_backend (save_backend "ftp://host" (Store.mk (some "http://a") none)).2 = "http://a" := by
  have h := C7_save_backend_reject_unchanged "ftp://host" (Store.mk (some "http://a") none)
      (by decide)
  exact ⟨h.2.1, by rw [h.2.2]; rfl⟩

/-- C8: `check_license` always returns a string (never raises): with no
stored key it returns the failure string with an empty request log; with
a key, any exception outcome yields a descriptive failure string, and a
parsed response yields the formatted plan/quota status string. -/
theorem C8_check_license_total (s : Store) (net : String → String → Except String LicenseResp) :
    (get_license s = "" → check_license s net = ("❌ No license saved", [])) ∧
    (get_license s ≠ "" →
      (∀ e, net (get_backend s ++ "/api/license/verify") (get_license s) = Except.error e →
          check_license s net =
            ("❌ " ++ e, [get_backend s ++ "/api/license/verify"])) ∧
      (∀ d, net (get_backend s ++ "/api/license/verify") (get_license s) = Except.ok d →
          check_license s net =
            ("✅ Plan: " ++ d.plan ++ " | Remaining: " ++ toString d.quota_remaining,
             [get_backend s ++ "/api/license/verify"]))) := by
  refine ⟨fun hk => ?_, fun hk => ⟨fun e he => ?_, fun d hd => ?_⟩⟩
  · simp [check_license, if_pos hk]
  · simp [check_license, if_neg hk, he]
  · simp [check_license, if_neg hk, hd]

/-- Witness for C8: with no stored key the failure string is returned
and no request is issued. -/
theorem C8_check_license_total_witness :
    check_license (Store.mk none none) (fun _ _ => Except.error "connection refused") =
      ("❌ No license saved", []) :=
  (C8_check_license_total (Store.mk none none) (fun _ _ => Except.error "connection refused")).1 rfl

/-- C9: `save_license "abcdefgh"` succeeds and a subsequent
`get_license` returns exactly "abcdefgh", from any starting store; and
`get_backend` on a store with no backend file returns exactly the
default "http://localhost:8000". -/
theorem C9_roundtrip_default (s : Store) :
    (save_license "abcdefgh" s).1 = Except.ok "✅ Saved" ∧
    get_license (save_license "abcdefgh" s).2 = "abcdefgh" ∧
    get_backend (Store.mk none none) = "http://localhost:8000" := by
  have h8 : ¬ ((pyStrip "abcdefgh").length < 8) := by decide
  have hs : pyStrip (pyStrip "abcdefgh") = "abcdefgh" := by decide
  refine ⟨?_, ?_, rfl⟩ <;> simp [save_license, if_neg h8, get_license, hs]

/-- C10: `upload_file` on an empty file list returns "No file selected."
without raising and with an empty request log, for every store — in
particular the stored license key is never consulted. -/
theorem C10_upload_no_files (s : Store) (net : String → String → UFile → UploadResp) :
    upload_file [] s net = (Except.ok "No file selected.", []) := rfl

end ChatClient
